import Mathlib

set_option autoImplicit false

/-!
# Device Capability Detection & Recommendation Engine — verification

Shallow embedding of `src/hooks/useDeviceCapabilities.ts` together with the
static configuration tables `XR_DEVICE_SIGNATURES`, `KNOWN_DEVICE_PROFILES`,
`MOBILE_DEVICE_PATTERNS` and `BROWSER_PATTERNS` from `src/lib/constants.ts`.

JavaScript strings are modelled as Lean `String`; `String.prototype.includes`
becomes plain substring containment over the character list; the
case-insensitive regex tests used by the detectors (alternations of literals,
two of them with a `(?!.*X)` negative lookahead) are modelled explicitly.
Asynchronous browser probes become pure functions of an explicit environment
record, where `Option` encodes a promise that either resolves (`some`) or
rejects (`none`).
-/

/-! ## String containment primitives -/

/-- `charsLeads pat s` is true when `pat` occurs at the very front of `s`
(character-list version of `String.startsWith`). -/
def charsLeads : List Char → List Char → Bool
  | [], _ => true
  | _ :: _, [] => false
  | p :: ps, c :: cs => p == c && charsLeads ps cs

/-- `charsIncl pat s` is true when `pat` occurs contiguously somewhere in `s`
(character-list version of `String.prototype.includes`). -/
def charsIncl (pat : List Char) : List Char → Bool
  | [] => charsLeads pat []
  | c :: rest => charsLeads pat (c :: rest) || charsIncl pat rest

/-- `strIncludes s pat`: JavaScript `s.includes(pat)` (case sensitive). -/
def strIncludes (s pat : String) : Bool :=
  charsIncl pat.data s.data

/-- ASCII lower-casing of one character, as both JS `toLowerCase` and the
`/i` regex flag behave on the ASCII patterns used by this engine. -/
def lowerCh (c : Char) : Char :=
  if 65 ≤ c.toNat ∧ c.toNat ≤ 90 then Char.ofNat (c.toNat + 32) else c

/-- Lower-case every character of a string. -/
def lowerStr (s : String) : String :=
  ⟨s.data.map lowerCh⟩

/-- Case-insensitive containment: models testing a `/lit/i` regex whose body
is a plain literal (or one alternative of an alternation of literals). -/
def ciIncludes (s pat : String) : Bool :=
  charsIncl (pat.data.map lowerCh) (s.data.map lowerCh)

/-- `charsHasAvoiding pat avoid s`: some occurrence of `pat` in `s` is not
followed (anywhere later) by `avoid`.  This is the test of a regex
`pat(?!.*avoid)` such as `Chrome(?!.*Edge)`. -/
def charsHasAvoiding (pat avoid : List Char) : List Char → Bool
  | [] => charsLeads pat [] && !charsIncl avoid []
  | c :: rest =>
      (charsLeads pat (c :: rest) && !charsIncl avoid ((c :: rest).drop pat.length))
      || charsHasAvoiding pat avoid rest

/-- Case-insensitive version of `charsHasAvoiding` on strings, for the
`/pat(?!.*avoid)/i` browser patterns. -/
def ciHasAvoiding (s pat avoid : String) : Bool :=
  charsHasAvoiding (pat.data.map lowerCh) (avoid.data.map lowerCh) (s.data.map lowerCh)

/-! ## Static configuration tables (`src/lib/constants.ts`) -/

/-- `XR_DEVICE_SIGNATURES`: user-agent patterns per known device key, in the
object's (insertion) order, which is the order `Object.entries` iterates. -/
def XR_DEVICE_SIGNATURES : List (String × List String) :=
  [ ("meta-quest-3", ["Quest 3", "Meta Quest 3"])
  , ("meta-quest-3s", ["Quest 3S", "Meta Quest 3S"])
  , ("meta-quest-pro", ["Quest Pro", "Meta Quest Pro"])
  , ("meta-quest-2", ["Quest 2", "Meta Quest 2", "Oculus Quest 2"])
  , ("rokid-station-2", ["Rokid Station", "Rokid Station 2"])
  , ("rokid-air", ["Rokid Air"])
  , ("rayneo-air-3s", ["RayNeo Air 3S", "RayNeo X2"])
  , ("rayneo-air-2", ["RayNeo Air 2"])
  , ("apple-vision-pro", ["Apple Vision", "Vision Pro"])
  , ("pico-4", ["Pico 4", "PICO 4"]) ]

/-- A catalog entry of `KNOWN_DEVICE_PROFILES`. -/
structure DeviceProfile where
  name : String
  category : String
  hasPassthrough : Bool
  hasHandTracking : Bool
  hasCamera : Bool
  supportsRoomScan : Bool
  recommendedMode : Option String
  deriving DecidableEq

/-- `KNOWN_DEVICE_PROFILES`: capability profiles for known XR devices,
keyed by the same device keys plus `"unknown"`. -/
def KNOWN_DEVICE_PROFILES : List (String × DeviceProfile) :=
  [ ("meta-quest-3", ⟨"Meta Quest 3", "vr-headset", true, true, true, true, some "ar"⟩)
  , ("meta-quest-3s", ⟨"Meta Quest 3S", "vr-headset", true, true, true, true, some "ar"⟩)
  , ("meta-quest-pro", ⟨"Meta Quest Pro", "vr-headset", true, true, true, true, some "ar"⟩)
  , ("meta-quest-2", ⟨"Meta Quest 2", "vr-headset", true, true, true, false, some "vr"⟩)
  , ("rokid-station-2", ⟨"Rokid Station 2", "ar-glasses", true, false, false, false, some "ar"⟩)
  , ("rokid-air", ⟨"Rokid Air", "ar-glasses", true, false, false, false, some "ar"⟩)
  , ("rayneo-air-3s", ⟨"RayNeo Air 3S", "ar-glasses", true, false, true, false, some "ar"⟩)
  , ("rayneo-air-2", ⟨"RayNeo Air 2", "ar-glasses", true, false, false, false, some "ar"⟩)
  , ("apple-vision-pro", ⟨"Apple Vision Pro", "vr-headset", true, true, true, true, some "ar"⟩)
  , ("pico-4", ⟨"Pico 4", "vr-headset", true, true, true, false, some "vr"⟩)
  , ("unknown", ⟨"Unknown Device", "unknown", false, false, false, false, none⟩) ]

/-! ## Device matcher (`detectKnownXRDevice`) -/

/-- The `for (const [device, patterns] of Object.entries(...))` loop body of
`detectKnownXRDevice`: return the first device key one of whose patterns is
contained in the user agent. -/
def detectEntries (ua : String) : List (String × List String) → String
  | [] => "unknown"
  | (device, patterns) :: rest =>
      if patterns.any (fun p => strIncludes ua p) then device
      else detectEntries ua rest

/-- `detectKnownXRDevice` from `useDeviceCapabilities.ts:53-62`. -/
def detectKnownXRDevice (ua : String) : String :=
  detectEntries ua XR_DEVICE_SIGNATURES

/-! ## Platform detection (`detectOS`, `detectBrowser`, `getPlatformInfo`) -/

/-- Platform information block (`PlatformInfo` in `lib/types.ts`);
`os` and `browser` enumerations are modelled as their literal strings. -/
structure PlatformInfo where
  os : String
  browser : String
  isMobile : Bool
  isTablet : Bool
  isTouchDevice : Bool
  userAgent : String
  deriving DecidableEq

/-- `detectOS` from `useDeviceCapabilities.ts:28-35`: ordered case-insensitive
tests of `/iPhone|iPad|iPod/i`, `/Android/i`, `/Windows/i`, `/Mac OS X/i`,
`/Linux/i`; first match wins, default `'unknown'`. -/
def detectOS (userAgent : String) : String :=
  if ciIncludes userAgent "iPhone" || ciIncludes userAgent "iPad"
      || ciIncludes userAgent "iPod" then "ios"
  else if ciIncludes userAgent "Android" then "android"
  else if ciIncludes userAgent "Windows" then "windows"
  else if ciIncludes userAgent "Mac OS X" then "macos"
  else if ciIncludes userAgent "Linux" then "linux"
  else "unknown"

/-- `detectBrowser` from `useDeviceCapabilities.ts:40-48`, testing the
`BROWSER_PATTERNS` regexes in source order: edge, samsung, opera, chrome
(`/Chrome(?!.*Edge)/i`), safari (`/Safari(?!.*Chrome)/i`), firefox. -/
def detectBrowser (userAgent : String) : String :=
  if ciIncludes userAgent "Edge" || ciIncludes userAgent "Edg" then "edge"
  else if ciIncludes userAgent "SamsungBrowser" then "samsung"
  else if ciIncludes userAgent "Opera" || ciIncludes userAgent "OPR" then "opera"
  else if ciHasAvoiding userAgent "Chrome" "Edge" then "chrome"
  else if ciHasAvoiding userAgent "Safari" "Chrome" then "safari"
  else if ciIncludes userAgent "Firefox" then "firefox"
  else "unknown"

/-- `MOBILE_DEVICE_PATTERNS.mobile`:
`/Mobile|Android|webOS|iPhone|iPad|iPod|BlackBerry|IEMobile|Opera Mini/i`. -/
def mobilePatternTest (ua : String) : Bool :=
  ciIncludes ua "Mobile" || ciIncludes ua "Android" || ciIncludes ua "webOS"
    || ciIncludes ua "iPhone" || ciIncludes ua "iPad" || ciIncludes ua "iPod"
    || ciIncludes ua "BlackBerry" || ciIncludes ua "IEMobile"
    || ciIncludes ua "Opera Mini"

/-- `MOBILE_DEVICE_PATTERNS.tablet`: `/iPad|Android(?!.*Mobile)|Tablet/i`. -/
def tabletPatternTest (ua : String) : Bool :=
  ciIncludes ua "iPad" || ciHasAvoiding ua "Android" "Mobile"
    || ciIncludes ua "Tablet"

/-- One entry of `navigator.mediaDevices.enumerateDevices()`. -/
structure MediaDeviceInfo where
  kind : String
  label : String
  deriving DecidableEq

/-- The browser environment visible through `navigator`, as an explicit
record.  `present = false` models `typeof navigator === 'undefined'`.
`Option` fields model promise-returning APIs: `none` is a rejection.
Property presence and object truthiness are identified (one `Bool` each). -/
structure NavigatorEnv where
  present : Bool
  userAgent : String
  hasTouchStart : Bool
  maxTouchPoints : Nat
  hasMediaDevices : Bool
  hasGetUserMedia : Bool
  hasPermissionsApi : Bool
  cameraPermissionQuery : Option String
  enumerateResult : Option (List MediaDeviceInfo)
  getUserMediaGrants : Bool

/-- `getPlatformInfo` from `useDeviceCapabilities.ts:86-111`. -/
def getPlatformInfo (env : NavigatorEnv) : PlatformInfo :=
  if !env.present then
    ⟨"unknown", "unknown", false, false, false, ""⟩
  else
    { os := detectOS env.userAgent
      browser := detectBrowser env.userAgent
      isMobile := mobilePatternTest env.userAgent
      isTablet := tabletPatternTest env.userAgent
      isTouchDevice := env.hasTouchStart || decide (0 < env.maxTouchPoints)
      userAgent := env.userAgent }

/-! ## Camera probe (`checkCameraCapabilities`) -/

/-- Camera capability block (`CameraCapabilities` in `lib/types.ts`). -/
structure CameraCapabilities where
  hasCamera : Bool
  hasFrontCamera : Bool
  hasRearCamera : Bool
  supportsMediaDevices : Bool
  supportsGetUserMedia : Bool
  cameraPermissionState : String
  deriving DecidableEq

/-- The initial all-false block built at the top of `checkCameraCapabilities`. -/
def defaultCameraCapabilities : CameraCapabilities :=
  ⟨false, false, false, false, false, "unknown"⟩

/-- The front-camera label test of `useDeviceCapabilities.ts:159`. -/
def labelIndicatesFront (label : String) : Bool :=
  strIncludes (lowerStr label) "front" || strIncludes (lowerStr label) "facetime"
    || strIncludes (lowerStr label) "user"

/-- The rear-camera label test of `useDeviceCapabilities.ts:162`. -/
def labelIndicatesRear (label : String) : Bool :=
  strIncludes (lowerStr label) "back" || strIncludes (lowerStr label) "rear"
    || strIncludes (lowerStr label) "environment"

/-- `checkCameraCapabilities` from `useDeviceCapabilities.ts:116-181`.
The camera-permission query and the device enumeration are `Option`-valued
in the environment; `none` models the promise rejecting, which the source
catches (leaving the fields at their current values). -/
def checkCameraCapabilities (env : NavigatorEnv) : CameraCapabilities :=
  if !env.present then defaultCameraCapabilities
  else
    let supportsMediaDevices := env.hasMediaDevices
    let supportsGetUserMedia := env.hasMediaDevices && env.hasGetUserMedia
    let cameraPermissionState :=
      if env.hasPermissionsApi then
        match env.cameraPermissionQuery with
        | some state => state
        | none => "unknown"
      else "unknown"
    if supportsMediaDevices then
      match env.enumerateResult with
      | none =>
          { defaultCameraCapabilities with
              supportsMediaDevices, supportsGetUserMedia, cameraPermissionState }
      | some devices =>
          let videoDevices := devices.filter (fun d => d.kind == "videoinput")
          let hasCamera := !videoDevices.isEmpty
          let hasFrontCamera := videoDevices.any (fun d => labelIndicatesFront d.label)
          let hasRearCamera := videoDevices.any (fun d => labelIndicatesRear d.label)
          if hasCamera && !hasFrontCamera && !hasRearCamera
              && ((getPlatformInfo env).isMobile || (getPlatformInfo env).isTablet) then
            { hasCamera, hasFrontCamera := true, hasRearCamera := true,
              supportsMediaDevices, supportsGetUserMedia, cameraPermissionState }
          else
            { hasCamera, hasFrontCamera, hasRearCamera,
              supportsMediaDevices, supportsGetUserMedia, cameraPermissionState }
    else
      { defaultCameraCapabilities with
          supportsMediaDevices, supportsGetUserMedia, cameraPermissionState }

/-! ## XR probe (`checkXRCapabilities`) -/

/-- XR capability block (`XRCapabilities` in `lib/types.ts`). -/
structure XRCapabilities where
  supportsWebXR : Bool
  supportsImmersiveAR : Bool
  supportsImmersiveVR : Bool
  supportsInlineXR : Bool
  supportsHandTracking : Bool
  supportsHitTest : Bool
  supportsDomOverlay : Bool
  deriving DecidableEq

/-- The initial all-false block built at the top of `checkXRCapabilities`. -/
def defaultXRCapabilities : XRCapabilities :=
  ⟨false, false, false, false, false, false, false⟩

/-- `navigator.xr` with its three `isSessionSupported` queries; `some b`
models a query resolving to `b`, `none` a rejected query. -/
structure XRSystemModel where
  arQuery : Option Bool
  vrQuery : Option Bool
  inlineQuery : Option Bool
  deriving DecidableEq

/-- The XR side of the environment: `hasXRProperty` models `'xr' in
navigator`, and `xrObject = none` models a falsy `navigator.xr`. -/
structure XREnv where
  hasNavigator : Bool
  hasXRProperty : Bool
  xrObject : Option XRSystemModel
  deriving DecidableEq

/-- `checkXRCapabilities` from `useDeviceCapabilities.ts:186-233`: each
`isSessionSupported` query is independently try/caught to `false`, and hit
test / DOM overlay are inferred from confirmed immersive-ar support. -/
def checkXRCapabilities (env : XREnv) : XRCapabilities :=
  if !env.hasNavigator || !env.hasXRProperty then defaultXRCapabilities
  else
    match env.xrObject with
    | none => defaultXRCapabilities
    | some xr =>
        let supportsImmersiveAR := xr.arQuery.getD false
        { supportsWebXR := true
          supportsImmersiveAR
          supportsImmersiveVR := xr.vrQuery.getD false
          supportsInlineXR := xr.inlineQuery.getD false
          supportsHandTracking := false
          supportsHitTest := if supportsImmersiveAR then true else false
          supportsDomOverlay := if supportsImmersiveAR then true else false }

/-! ## Snapshot and recommendation engine -/

/-- The capability snapshot (`DeviceCapabilities` in `lib/types.ts`), minus
the `isLoading` flag and timestamp, which no claim concerns. -/
structure DeviceCapabilities where
  deviceCategory : String
  knownDevice : String
  platform : PlatformInfo
  camera : CameraCapabilities
  xr : XRCapabilities
  deriving DecidableEq

/-- `determineDeviceCategory` from `useDeviceCapabilities.ts:67-81`.  The
unchecked `KNOWN_DEVICE_PROFILES[knownDevice]` access is modelled with
`Option`: `none` is the runtime fault on a key outside the catalog. -/
def determineDeviceCategory (knownDevice : String) (platform : PlatformInfo) :
    Option String :=
  if knownDevice != "unknown" then
    (List.lookup knownDevice KNOWN_DEVICE_PROFILES).map (fun profile => profile.category)
  else if platform.isTablet then some "tablet"
  else if platform.isMobile then some "mobile"
  else some "desktop"

/-- The recommendation object (`DeviceFeatureRecommendations` in
`lib/types.ts`). -/
structure DeviceFeatureRecommendations where
  canScanRoom : Bool
  canUsePassthrough : Bool
  canUseHandTracking : Bool
  recommendedMode : Option String
  features : List String
  deriving DecidableEq

/-- `getRecommendations` from `useDeviceCapabilities.ts:316-365`.  The
known-device branch reads `KNOWN_DEVICE_PROFILES[knownDevice]` unchecked;
as above, `none` models the runtime fault on a key outside the catalog. -/
def getRecommendations (c : DeviceCapabilities) : Option DeviceFeatureRecommendations :=
  if c.knownDevice != "unknown" then
    (List.lookup c.knownDevice KNOWN_DEVICE_PROFILES).map (fun profile =>
      { canScanRoom := profile.supportsRoomScan
        canUsePassthrough := profile.hasPassthrough
        canUseHandTracking := profile.hasHandTracking
        recommendedMode := profile.recommendedMode
        features :=
          (if profile.hasPassthrough then ["Passthrough AR"] else [])
          ++ (if profile.hasHandTracking then ["Hand Tracking"] else [])
          ++ (if profile.supportsRoomScan then ["Room Scanning"] else [])
          ++ (if profile.hasCamera then ["Camera"] else []) })
  else
    let recommendedMode : Option String :=
      if c.xr.supportsImmersiveAR then some "ar"
      else if c.xr.supportsImmersiveVR then some "vr"
      else none
    let canUsePassthrough := c.xr.supportsImmersiveAR
    let xrFeatures : List String :=
      if c.xr.supportsImmersiveAR then ["AR Preview"]
      else if c.xr.supportsImmersiveVR then ["VR Preview"]
      else []
    let isMobileLike := c.deviceCategory == "mobile" || c.deviceCategory == "tablet"
    let canScanRoom := c.camera.hasCamera && isMobileLike
    let cameraFeatures : List String :=
      if c.camera.hasCamera then
        "Camera" :: (if isMobileLike then ["Room Scanning (via camera)"] else [])
      else []
    some
      { canScanRoom
        canUsePassthrough
        canUseHandTracking := false
        recommendedMode
        features := xrFeatures ++ cameraFeatures }

/-! ## Camera permission request (`requestCameraPermission`) -/

/-- `requestCameraPermission` from `useDeviceCapabilities.ts:368-384`,
as a function of the snapshot's `supportsGetUserMedia` flag and whether the
runtime grants the `getUserMedia` request (`false` = the call rejects).
Returns the boolean result paired with whether a capability refresh
(`detectCapabilities`) was triggered. -/
def requestCameraPermission (supportsGetUserMedia grants : Bool) : Bool × Bool :=
  if !supportsGetUserMedia then (false, false)
  else if grants then (true, true)
  else (false, false)

/-! ## Containment lemmas -/

theorem charsLeads_trans : ∀ (a b c : List Char), charsLeads a b = true →
    charsLeads b c = true → charsLeads a c = true
  | [], _, _, _, _ => rfl
  | _ :: _, [], _, h1, _ => by simp [charsLeads] at h1
  | _ :: _, _ :: _, [], _, h2 => by simp [charsLeads] at h2
  | x :: xs, y :: ys, z :: zs, h1, h2 => by
      simp only [charsLeads, Bool.and_eq_true, beq_iff_eq] at h1 h2 ⊢
      exact ⟨h1.1.trans h2.1, charsLeads_trans xs ys zs h1.2 h2.2⟩

theorem charsIncl_nil_pat : ∀ s : List Char, charsIncl [] s = true
  | [] => rfl
  | _ :: rest => by simp [charsIncl, charsLeads]

theorem charsIncl_of_leads : ∀ (p s : List Char), charsLeads p s = true →
    charsIncl p s = true
  | _, [], h => h
  | _, _ :: _, h => by simp [charsIncl, h]

theorem charsIncl_cons (p : List Char) (c : Char) (rest : List Char)
    (h : charsIncl p rest = true) : charsIncl p (c :: rest) = true := by
  simp [charsIncl, h]

theorem charsIncl_of_leads_of_incl : ∀ (b s a : List Char), charsLeads b s = true →
    charsIncl a b = true → charsIncl a s = true
  | [], s, a, _, hIncl => by
      have ha : charsLeads a [] = true := hIncl
      cases a with
      | nil => exact charsIncl_nil_pat s
      | cons x xs => simp [charsLeads] at ha
  | x :: bs, s, a, hLeads, hIncl => by
      cases s with
      | nil => simp [charsLeads] at hLeads
      | cons c cs =>
          simp only [charsLeads, Bool.and_eq_true, beq_iff_eq] at hLeads
          simp only [charsIncl, Bool.or_eq_true] at hIncl
          rcases hIncl with hl | hi
          · refine charsIncl_of_leads a (c :: cs) ?_
            refine charsLeads_trans a (x :: bs) (c :: cs) hl ?_
            simp only [charsLeads, Bool.and_eq_true, beq_iff_eq]
            exact ⟨hLeads.1, hLeads.2⟩
          · exact charsIncl_cons a c cs (charsIncl_of_leads_of_incl bs cs a hLeads.2 hi)

theorem charsIncl_trans : ∀ (s b a : List Char), charsIncl b s = true →
    charsIncl a b = true → charsIncl a s = true
  | [], b, a, h1, h2 => charsIncl_of_leads_of_incl b [] a h1 h2
  | c :: rest, b, a, h1, h2 => by
      simp only [charsIncl, Bool.or_eq_true] at h1
      rcases h1 with hl | hi
      · exact charsIncl_of_leads_of_incl b (c :: rest) a hl h2
      · exact charsIncl_cons a c rest (charsIncl_trans rest b a hi h2)

/-- Containment of strings is transitive: if `s` includes `b` and `b`
includes `a` then `s` includes `a`. -/
theorem strIncludes_trans (s b a : String) (h1 : strIncludes s b = true)
    (h2 : strIncludes b a = true) : strIncludes s a = true :=
  charsIncl_trans s.data b.data a.data h1 h2

/-! ## Lemmas about the matcher loop -/

/-- `detectEntries` is first-match search: it agrees with `List.find?` over
the table, defaulting to `"unknown"`. -/
theorem detectEntries_eq_find (ua : String) : ∀ l : List (String × List String),
    detectEntries ua l =
      ((l.find? (fun e => e.2.any (fun p => strIncludes ua p))).map Prod.fst).getD "unknown"
  | [] => rfl
  | (device, patterns) :: rest => by
      cases h : patterns.any (fun p => strIncludes ua p) with
      | true => simp [detectEntries, List.find?, h]
      | false => simp [detectEntries, List.find?, h, detectEntries_eq_find ua rest]

/-- `detectEntries` returns `"unknown"` or one of the table's device keys. -/
theorem detectEntries_mem (ua : String) : ∀ l : List (String × List String),
    detectEntries ua l = "unknown" ∨ detectEntries ua l ∈ l.map Prod.fst
  | [] => Or.inl rfl
  | (device, patterns) :: rest => by
      cases h : patterns.any (fun p => strIncludes ua p) with
      | true => simp [detectEntries, h]
      | false =>
          rcases detectEntries_mem ua rest with h1 | h1
          · simp [detectEntries, h, h1]
          · simp only [detectEntries, h, Bool.false_eq_true, if_false, List.map_cons]
            exact Or.inr (List.mem_cons_of_mem _ h1)

/-! ## Claim C1 -/

/-- Claim C1: for every signature string, `detectKnownXRDevice` returns the
first device key in `XR_DEVICE_SIGNATURES` (in its defined entry order) one
of whose pattern substrings is contained in the signature, and `"unknown"`
when no pattern of any entry is contained; and the returned value is always
a key of `KNOWN_DEVICE_PROFILES`, so the profile lookup never fails. -/
theorem detect_known_device_first_match_total (ua : String) :
    detectKnownXRDevice ua =
      ((XR_DEVICE_SIGNATURES.find? (fun e => e.2.any (fun p => strIncludes ua p))).map
        Prod.fst).getD "unknown"
    ∧ (List.lookup (detectKnownXRDevice ua) KNOWN_DEVICE_PROFILES).isSome = true := by
  refine ⟨detectEntries_eq_find ua XR_DEVICE_SIGNATURES, ?_⟩
  have htotal : ∀ k ∈ "unknown" :: XR_DEVICE_SIGNATURES.map Prod.fst,
      (List.lookup k KNOWN_DEVICE_PROFILES).isSome = true := by decide
  rcases detectEntries_mem ua XR_DEVICE_SIGNATURES with h | h
  · exact htotal _ (by rw [detectKnownXRDevice, h]; exact List.mem_cons_self _ _)
  · exact htotal _ (List.mem_cons_of_mem _ h)

/-! ## Claim C2 -/

/-- Claim C2: every signature containing `"Quest 3S"` is matched to
`"meta-quest-3"` (whose pattern `"Quest 3"` is contained in `"Quest 3S"`
and whose entry precedes `"meta-quest-3s"`), and the `"meta-quest-3s"` key
is unreachable: no input makes the matcher return it. -/
theorem quest3s_shadowed :
    (∀ ua : String, strIncludes ua "Quest 3S" = true →
      detectKnownXRDevice ua = "meta-quest-3")
    ∧ ∀ ua : String, detectKnownXRDevice ua ≠ "meta-quest-3s" := by
  constructor
  · intro ua h
    have h3 : strIncludes ua "Quest 3" = true :=
      strIncludes_trans ua "Quest 3S" "Quest 3" h (by decide)
    simp [detectKnownXRDevice, XR_DEVICE_SIGNATURES, detectEntries, h3]
  · intro ua
    by_cases h1 : strIncludes ua "Quest 3" = true
    · simp [detectKnownXRDevice, XR_DEVICE_SIGNATURES, detectEntries, h1]
    · by_cases h1b : strIncludes ua "Meta Quest 3" = true
      · simp [detectKnownXRDevice, XR_DEVICE_SIGNATURES, detectEntries, h1b]
      · have h2 : strIncludes ua "Quest 3S" = false := by
          cases hq : strIncludes ua "Quest 3S" with
          | true => exact absurd (strIncludes_trans ua "Quest 3S" "Quest 3" hq (by decide)) h1
          | false => rfl
        have h2b : strIncludes ua "Meta Quest 3S" = false := by
          cases hq : strIncludes ua "Meta Quest 3S" with
          | true => exact absurd (strIncludes_trans ua "Meta Quest 3S" "Quest 3" hq (by decide)) h1
          | false => rfl
        simp only [detectKnownXRDevice, XR_DEVICE_SIGNATURES, detectEntries, List.any_cons,
          List.any_nil, h1, h1b, h2, h2b, Bool.or_false, Bool.false_or,
          Bool.false_eq_true, if_false]
        split_ifs <;> decide

/-- An instance of `quest3s_shadowed` at the concrete signature
`"Meta Quest 3S user agent"`. -/
theorem quest3s_shadowed_witness :
    strIncludes "Meta Quest 3S user agent" "Quest 3S" = true
    ∧ detectKnownXRDevice "Meta Quest 3S user agent" = "meta-quest-3"
    ∧ detectKnownXRDevice "Meta Quest 3S user agent" ≠ "meta-quest-3s" :=
  ⟨by decide, quest3s_shadowed.1 "Meta Quest 3S user agent" (by decide),
    quest3s_shadowed.2 "Meta Quest 3S user agent"⟩

/-! ## Claim C3 -/

/-- Membership in a flag-gated singleton feature list. -/
theorem mem_ite_singleton (x y : String) (b : Bool) :
    (x ∈ if b then [y] else ([] : List String)) ↔ (b = true ∧ x = y) := by
  cases b <;> simp

/-- Claim C3: for snapshots whose `knownDevice` is not `"unknown"`,
`getRecommendations` is fully determined by the device's catalog profile:
snapshots agreeing on `knownDevice` get identical recommendations whatever
their camera, xr and category fields; the recommendation fields are taken
from the profile, with each feature label present exactly when the
corresponding profile flag is set; and a `"meta-quest-2"` snapshot yields
mode `'vr'` and `canScanRoom = false` even when a camera was detected. -/
theorem known_device_profile_determines :
    (∀ c1 c2 : DeviceCapabilities, c1.knownDevice = c2.knownDevice →
      c1.knownDevice ≠ "unknown" → getRecommendations c1 = getRecommendations c2)
    ∧ (∀ (c : DeviceCapabilities) (p : DeviceProfile), c.knownDevice ≠ "unknown" →
        List.lookup c.knownDevice KNOWN_DEVICE_PROFILES = some p →
        ∃ rec, getRecommendations c = some rec
          ∧ rec.recommendedMode = p.recommendedMode
          ∧ rec.canScanRoom = p.supportsRoomScan
          ∧ rec.canUsePassthrough = p.hasPassthrough
          ∧ rec.canUseHandTracking = p.hasHandTracking
          ∧ (("Passthrough AR" ∈ rec.features) ↔ p.hasPassthrough = true)
          ∧ (("Hand Tracking" ∈ rec.features) ↔ p.hasHandTracking = true)
          ∧ (("Room Scanning" ∈ rec.features) ↔ p.supportsRoomScan = true)
          ∧ (("Camera" ∈ rec.features) ↔ p.hasCamera = true))
    ∧ (∀ c : DeviceCapabilities, c.knownDevice = "meta-quest-2" →
        getRecommendations c = some ⟨false, true, true, some "vr",
          ["Passthrough AR", "Hand Tracking", "Camera"]⟩) := by
  refine ⟨?_, ?_, ?_⟩
  · intro c1 c2 h hne
    have hb : (c2.knownDevice != "unknown") = true := bne_iff_ne.2 (h ▸ hne)
    simp [getRecommendations, h, hb]
  · intro c p hne hlook
    have hb : (c.knownDevice != "unknown") = true := bne_iff_ne.2 hne
    have hrec : getRecommendations c = some
        ⟨p.supportsRoomScan, p.hasPassthrough, p.hasHandTracking, p.recommendedMode,
          (if p.hasPassthrough then ["Passthrough AR"] else [])
          ++ (if p.hasHandTracking then ["Hand Tracking"] else [])
          ++ (if p.supportsRoomScan then ["Room Scanning"] else [])
          ++ (if p.hasCamera then ["Camera"] else [])⟩ := by
      simp [getRecommendations, hb, hlook]
    refine ⟨_, hrec, rfl, rfl, rfl, rfl, ?_, ?_, ?_, ?_⟩ <;>
      simp [List.mem_append, mem_ite_singleton]
  · intro c h
    have hb : (c.knownDevice != "unknown") = true := by rw [h]; decide
    simp [getRecommendations, hb, h, KNOWN_DEVICE_PROFILES, List.lookup]

/-- A Meta Quest 2 snapshot whose camera probe did detect cameras. -/
def questSnapshotWithCamera : DeviceCapabilities :=
  ⟨"vr-headset", "meta-quest-2",
    ⟨"android", "chrome", false, false, true, "Mozilla/5.0 Quest 2"⟩,
    ⟨true, true, true, true, true, "granted"⟩,
    ⟨true, true, false, true, false, true, true⟩⟩

/-- A Meta Quest 2 snapshot with entirely different camera, xr and category
fields. -/
def questSnapshotBare : DeviceCapabilities :=
  ⟨"desktop", "meta-quest-2",
    ⟨"unknown", "unknown", false, false, false, ""⟩,
    ⟨false, false, false, false, false, "unknown"⟩,
    ⟨false, false, false, false, false, false, false⟩⟩

/-- An instance of `known_device_profile_determines` at two concrete
`meta-quest-2` snapshots differing in every other field. -/
theorem known_device_profile_determines_witness :
    questSnapshotWithCamera.knownDevice = questSnapshotBare.knownDevice
    ∧ questSnapshotWithCamera.camera.hasCamera = true
    ∧ getRecommendations questSnapshotWithCamera = getRecommendations questSnapshotBare
    ∧ (∃ rec, getRecommendations questSnapshotWithCamera = some rec
        ∧ rec.recommendedMode = (some "vr" : Option String)
        ∧ rec.canScanRoom = false
        ∧ rec.canUsePassthrough = true
        ∧ rec.canUseHandTracking = true
        ∧ (("Passthrough AR" ∈ rec.features) ↔ True)
        ∧ (("Hand Tracking" ∈ rec.features) ↔ True)
        ∧ (("Room Scanning" ∈ rec.features) ↔ False)
        ∧ (("Camera" ∈ rec.features) ↔ True))
    ∧ getRecommendations questSnapshotWithCamera = some ⟨false, true, true, some "vr",
        ["Passthrough AR", "Hand Tracking", "Camera"]⟩ := by
  have hproj := known_device_profile_determines.2.1 questSnapshotWithCamera
    ⟨"Meta Quest 2", "vr-headset", true, true, true, false, some "vr"⟩
    (by decide) (by decide)
  refine ⟨rfl, rfl,
    known_device_profile_determines.1 questSnapshotWithCamera questSnapshotBare rfl
      (by decide), ?_,
    known_device_profile_determines.2.2 questSnapshotWithCamera rfl⟩
  obtain ⟨rec, h1, h2, h3, h4, h5, h6, h7, h8, h9⟩ := hproj
  exact ⟨rec, h1, h2, h3, h4, h5, by simp [h6], by simp [h7], by simp [h8], by simp [h9]⟩

/-! ## Claim C4 -/

/-- If `ua` does not include `a`, it does not include any `b` of which `a`
is a substring. -/
theorem strIncludes_false_of_sub (ua b a : String) (hab : strIncludes b a = true)
    (ha : strIncludes ua a = false) : strIncludes ua b = false := by
  cases hq : strIncludes ua b with
  | true => exact absurd (strIncludes_trans ua b a hq hab) (by simp [ha])
  | false => rfl

/-- Claim C4 fails as stated: the signature `"Quest 3 Rokid Station 2"`
contains `"Rokid Station 2"`, yet the matcher returns `"meta-quest-3"`
(the earlier table entry wins), not `"rokid-station-2"`. -/
theorem rokid_station_counterexample :
    strIncludes "Quest 3 Rokid Station 2" "Rokid Station 2" = true
    ∧ detectKnownXRDevice "Quest 3 Rokid Station 2" ≠ "rokid-station-2"
    ∧ detectKnownXRDevice "Quest 3 Rokid Station 2" = "meta-quest-3" :=
  ⟨by decide, by decide, by decide⟩

/-- Claim C4, amended: a signature containing `"Rokid Station 2"` that does
not also contain a pattern of one of the earlier Meta Quest table entries
(`"Quest 3"`, `"Quest Pro"`, `"Quest 2"`) is matched to
`"rokid-station-2"`, and `getRecommendations` on the resulting snapshot
returns mode `'ar'`, `canUsePassthrough = true`,
`canUseHandTracking = false`, with `"Passthrough AR"` among the features. -/
theorem rokid_station_amended (ua : String) (c : DeviceCapabilities)
    (hrok : strIncludes ua "Rokid Station 2" = true)
    (hq3 : strIncludes ua "Quest 3" = false)
    (hqp : strIncludes ua "Quest Pro" = false)
    (hq2 : strIncludes ua "Quest 2" = false)
    (hc : c.knownDevice = detectKnownXRDevice ua) :
    detectKnownXRDevice ua = "rokid-station-2"
    ∧ getRecommendations c = some ⟨false, true, false, some "ar", ["Passthrough AR"]⟩ := by
  have hq3m := strIncludes_false_of_sub ua "Meta Quest 3" "Quest 3" (by decide) hq3
  have hq3s := strIncludes_false_of_sub ua "Quest 3S" "Quest 3" (by decide) hq3
  have hq3sm := strIncludes_false_of_sub ua "Meta Quest 3S" "Quest 3" (by decide) hq3
  have hqpm := strIncludes_false_of_sub ua "Meta Quest Pro" "Quest Pro" (by decide) hqp
  have hq2m := strIncludes_false_of_sub ua "Meta Quest 2" "Quest 2" (by decide) hq2
  have hq2o := strIncludes_false_of_sub ua "Oculus Quest 2" "Quest 2" (by decide) hq2
  have hrs : strIncludes ua "Rokid Station" = true :=
    strIncludes_trans ua "Rokid Station 2" "Rokid Station" hrok (by decide)
  have hdet : detectKnownXRDevice ua = "rokid-station-2" := by
    simp [detectKnownXRDevice, XR_DEVICE_SIGNATURES, detectEntries,
      hq3, hq3m, hq3s, hq3sm, hqp, hqpm, hq2, hq2m, hq2o, hrs]
  have hkc : c.knownDevice = "rokid-station-2" := hc.trans hdet
  have hb : (c.knownDevice != "unknown") = true := by rw [hkc]; decide
  refine ⟨hdet, ?_⟩
  simp [getRecommendations, hb, hkc, KNOWN_DEVICE_PROFILES, List.lookup]

/-- A snapshot whose matcher output is `"rokid-station-2"`. -/
def rokidSnapshot : DeviceCapabilities :=
  ⟨"ar-glasses", "rokid-station-2",
    ⟨"unknown", "unknown", false, false, false, "Rokid Station 2"⟩,
    ⟨false, false, false, false, false, "unknown"⟩,
    ⟨false, false, false, false, false, false, false⟩⟩

/-- An instance of `rokid_station_amended` at the concrete signature
`"Rokid Station 2"`. -/
theorem rokid_station_amended_witness :
    strIncludes "Rokid Station 2" "Rokid Station 2" = true
    ∧ detectKnownXRDevice "Rokid Station 2" = "rokid-station-2"
    ∧ getRecommendations rokidSnapshot
        = some ⟨false, true, false, some "ar", ["Passthrough AR"]⟩ := by
  have h := rokid_station_amended "Rokid Station 2" rokidSnapshot
    (by decide) (by decide) (by decide) (by decide) (by decide)
  exact ⟨by decide, h.1, h.2⟩

/-! ## Claim C5 -/

/-- Claim C5: a snapshot with `knownDevice = "unknown"`, no camera and no
immersive AR/VR support gets exactly the empty recommendation — mode
`null`, all booleans false, empty feature list — not an error. -/
theorem empty_snapshot_empty_recommendation (c : DeviceCapabilities)
    (hk : c.knownDevice = "unknown") (hcam : c.camera.hasCamera = false)
    (har : c.xr.supportsImmersiveAR = false) (hvr : c.xr.supportsImmersiveVR = false) :
    getRecommendations c = some ⟨false, false, false, none, []⟩ := by
  simp [getRecommendations, hk, hcam, har, hvr]

/-- A snapshot with no known device, no camera and no XR support. -/
def bareSnapshot : DeviceCapabilities :=
  ⟨"desktop", "unknown",
    ⟨"unknown", "unknown", false, false, false, ""⟩,
    ⟨false, false, false, false, false, "unknown"⟩,
    ⟨false, false, false, false, false, false, false⟩⟩

/-- An instance of `empty_snapshot_empty_recommendation` at a concrete bare
snapshot. -/
theorem empty_snapshot_empty_recommendation_witness :
    getRecommendations bareSnapshot = some ⟨false, false, false, none, []⟩ :=
  empty_snapshot_empty_recommendation bareSnapshot rfl rfl rfl rfl

/-! ## Claim C6 -/

/-- Claim C6: the XR probe never rejects.  With no XR session API it
resolves to the all-false block; otherwise the three session queries are
recorded independently, a rejected query (`none`) becoming `false` for that
feature only; and hit-test and DOM-overlay support are reported true
exactly when the `'immersive-ar'` query resolved `true`. -/
theorem xr_probe_never_rejects :
    (∀ env : XREnv,
      env.hasNavigator = false ∨ env.hasXRProperty = false ∨ env.xrObject = none →
      checkXRCapabilities env = defaultXRCapabilities)
    ∧ (∀ (env : XREnv) (xr : XRSystemModel), env.hasNavigator = true →
        env.hasXRProperty = true → env.xrObject = some xr →
        checkXRCapabilities env =
          ⟨true, xr.arQuery.getD false, xr.vrQuery.getD false, xr.inlineQuery.getD false,
            false, xr.arQuery.getD false, xr.arQuery.getD false⟩
        ∧ ((checkXRCapabilities env).supportsHitTest = true ↔ xr.arQuery = some true)
        ∧ ((checkXRCapabilities env).supportsDomOverlay = true ↔ xr.arQuery = some true)) := by
  constructor
  · intro env h
    rcases h with h | h | h
    · simp [checkXRCapabilities, h]
    · simp [checkXRCapabilities, h]
    · cases hn : env.hasNavigator <;> cases hx : env.hasXRProperty <;>
        simp [checkXRCapabilities, h, hn, hx]
  · intro env xr h1 h2 h3
    have hEq : checkXRCapabilities env =
        ⟨true, xr.arQuery.getD false, xr.vrQuery.getD false, xr.inlineQuery.getD false,
          false, xr.arQuery.getD false, xr.arQuery.getD false⟩ := by
      cases ha : xr.arQuery with
      | none => simp [checkXRCapabilities, h1, h2, h3, ha]
      | some b => cases b <;> simp [checkXRCapabilities, h1, h2, h3, ha]
    refine ⟨hEq, ?_, ?_⟩ <;> rw [hEq] <;> cases ha : xr.arQuery with
    | none => simp
    | some b => cases b <;> simp

/-- An environment whose immersive-ar query rejects while the other two
queries resolve. -/
def xrEnvArRejected : XREnv :=
  ⟨true, true, some ⟨none, some true, some false⟩⟩

/-- An instance of `xr_probe_never_rejects`: a rejected immersive-ar query
yields `false` for AR only (immersive-vr stays `true`), and an environment
with no XR API yields the all-false block. -/
theorem xr_probe_never_rejects_witness :
    checkXRCapabilities xrEnvArRejected
      = ⟨true, false, true, false, false, false, false⟩
    ∧ checkXRCapabilities ⟨false, false, none⟩ = defaultXRCapabilities :=
  ⟨(xr_probe_never_rejects.2 xrEnvArRejected ⟨none, some true, some false⟩
      rfl rfl rfl).1,
    xr_probe_never_rejects.1 ⟨false, false, none⟩ (Or.inl rfl)⟩

/-! ## Claim C7 -/

/-- An environment where `navigator.mediaDevices` is absent but the
Permissions API is present and answers the camera query with `"granted"`. -/
def camEnvNoMediaDevices : NavigatorEnv :=
  ⟨true, "", false, 0, false, false, true, some "granted", none, false⟩

/-- An environment where `navigator.mediaDevices` exists but
`enumerateDevices()` rejects. -/
def camEnvEnumFails : NavigatorEnv :=
  ⟨true, "", false, 0, true, true, false, none, none, false⟩

/-- Claim C7 fails as stated, in both halves: with the media-device API
absent but the Permissions API answering `"granted"`, the probe reports
`cameraPermissionState = "granted"`, not `"unknown"`; and on enumeration
failure the block is not all-false — `supportsMediaDevices` is `true`. -/
theorem camera_probe_counterexample :
    camEnvNoMediaDevices.hasMediaDevices = false
    ∧ (checkCameraCapabilities camEnvNoMediaDevices).cameraPermissionState ≠ "unknown"
    ∧ camEnvEnumFails.enumerateResult = none
    ∧ (checkCameraCapabilities camEnvEnumFails).supportsMediaDevices = true :=
  ⟨rfl, by decide, rfl, by decide⟩

/-- Claim C7, amended: the camera probe never throws.  With `navigator`
absent it returns the default block; with the media-device API absent every
boolean flag is false, and `cameraPermissionState` is `'unknown'` unless
the Permissions API answered the camera query, whose state is then
reported; a failure of device enumeration leaves the camera-presence flags
(`hasCamera`, `hasFrontCamera`, `hasRearCamera`) at their default `false`
while the API-support flags and permission state keep their probed values. -/
theorem camera_probe_amended :
    (∀ env : NavigatorEnv, env.present = false →
      checkCameraCapabilities env = defaultCameraCapabilities)
    ∧ (∀ env : NavigatorEnv, env.present = true → env.hasMediaDevices = false →
        checkCameraCapabilities env =
          ⟨false, false, false, false, false,
            if env.hasPermissionsApi then env.cameraPermissionQuery.getD "unknown"
            else "unknown"⟩)
    ∧ (∀ env : NavigatorEnv, env.present = true → env.hasMediaDevices = true →
        env.enumerateResult = none →
        checkCameraCapabilities env =
          ⟨false, false, false, true, env.hasGetUserMedia,
            if env.hasPermissionsApi then env.cameraPermissionQuery.getD "unknown"
            else "unknown"⟩) := by
  refine ⟨?_, ?_, ?_⟩
  · intro env h
    simp [checkCameraCapabilities, h]
  · intro env hp hm
    cases hpa : env.hasPermissionsApi <;> cases hq : env.cameraPermissionQuery <;>
      simp [checkCameraCapabilities, hp, hm, hpa, hq, defaultCameraCapabilities]
  · intro env hp hm he
    cases hpa : env.hasPermissionsApi <;> cases hq : env.cameraPermissionQuery <;>
      simp [checkCameraCapabilities, hp, hm, he, hpa, hq, defaultCameraCapabilities]

/-- An instance of `camera_probe_amended` at the two concrete environments
of the counterexample and at an absent `navigator`. -/
theorem camera_probe_amended_witness :
    checkCameraCapabilities ⟨false, "", false, 0, false, false, false, none, none, false⟩
      = defaultCameraCapabilities
    ∧ checkCameraCapabilities camEnvNoMediaDevices
      = ⟨false, false, false, false, false, "granted"⟩
    ∧ checkCameraCapabilities camEnvEnumFails
      = ⟨false, false, false, true, true, "unknown"⟩ :=
  ⟨camera_probe_amended.1 _ rfl,
    camera_probe_amended.2.1 camEnvNoMediaDevices rfl rfl,
    camera_probe_amended.2.2 camEnvEnumFails rfl rfl rfl⟩

/-! ## Claim C8 -/

/-- Claim C8: if the camera probe finds video-input devices but no label
matches a front- or rear-indicating substring, and the platform is mobile
or tablet, both `hasFrontCamera` and `hasRearCamera` are set; and a
snapshot with no known-device match, category mobile, immersive-ar support
and a detected camera is recommended mode `'ar'` with `canScanRoom = true`
and features containing `"Camera"` and the room-scanning label. -/
theorem unlabeled_mobile_camera_heuristic :
    (∀ (env : NavigatorEnv) (devices : List MediaDeviceInfo),
      env.present = true → env.hasMediaDevices = true →
      env.enumerateResult = some devices →
      (devices.filter (fun d => d.kind == "videoinput")).isEmpty = false →
      (∀ d ∈ devices.filter (fun d => d.kind == "videoinput"),
        labelIndicatesFront d.label = false ∧ labelIndicatesRear d.label = false) →
      ((getPlatformInfo env).isMobile = true ∨ (getPlatformInfo env).isTablet = true) →
      (checkCameraCapabilities env).hasFrontCamera = true
      ∧ (checkCameraCapabilities env).hasRearCamera = true)
    ∧ (∀ c : DeviceCapabilities, c.knownDevice = "unknown" →
        c.deviceCategory = "mobile" → c.xr.supportsImmersiveAR = true →
        c.camera.hasCamera = true →
        ∃ rec, getRecommendations c = some rec
          ∧ rec.recommendedMode = some "ar"
          ∧ rec.canScanRoom = true
          ∧ "Camera" ∈ rec.features
          ∧ "Room Scanning (via camera)" ∈ rec.features) := by
  constructor
  · intro env devices hp hm he hv hlab hmob
    have hf : (devices.filter (fun d => d.kind == "videoinput")).any
        (fun d => labelIndicatesFront d.label) = false := by
      rw [List.any_eq_false]
      intro d hd
      simp [(hlab d hd).1]
    have hr : (devices.filter (fun d => d.kind == "videoinput")).any
        (fun d => labelIndicatesRear d.label) = false := by
      rw [List.any_eq_false]
      intro d hd
      simp [(hlab d hd).2]
    rcases hmob with h | h <;>
      simp [checkCameraCapabilities, hp, hm, he, hv, hf, hr, h]
  · intro c hk hcat har hcam
    refine ⟨⟨true, true, false, some "ar",
      ["AR Preview", "Camera", "Room Scanning (via camera)"]⟩, ?_, rfl, rfl, ?_, ?_⟩
    · simp [getRecommendations, hk, hcat, har, hcam]
    · simp
    · simp

/-- An iPhone-like environment: mobile user agent, one unlabeled
video-input device. -/
def iphoneEnv : NavigatorEnv :=
  ⟨true, "Mozilla/5.0 (iPhone) Safari", true, 5, true, true, false, none,
    some [⟨"videoinput", ""⟩], true⟩

/-- The snapshot built from `iphoneEnv` with immersive-ar support. -/
def iphoneSnapshot : DeviceCapabilities :=
  ⟨"mobile", "unknown", getPlatformInfo iphoneEnv, checkCameraCapabilities iphoneEnv,
    ⟨true, true, false, true, false, true, true⟩⟩

/-- An instance of `unlabeled_mobile_camera_heuristic` at the concrete
iPhone environment. -/
theorem unlabeled_mobile_camera_heuristic_witness :
    (getPlatformInfo iphoneEnv).isMobile = true
    ∧ (checkCameraCapabilities iphoneEnv).hasFrontCamera = true
    ∧ (checkCameraCapabilities iphoneEnv).hasRearCamera = true
    ∧ ∃ rec, getRecommendations iphoneSnapshot = some rec
        ∧ rec.recommendedMode = some "ar"
        ∧ rec.canScanRoom = true
        ∧ "Camera" ∈ rec.features
        ∧ "Room Scanning (via camera)" ∈ rec.features := by
  have ha := unlabeled_mobile_camera_heuristic.1 iphoneEnv [⟨"videoinput", ""⟩]
    rfl rfl rfl (by decide) (by decide) (Or.inl (by decide))
  have hb := unlabeled_mobile_camera_heuristic.2 iphoneSnapshot rfl rfl rfl (by decide)
  exact ⟨by decide, ha.1, ha.2, hb⟩

/-! ## Claim C9 -/

/-- Claim C9: `detectOS` and `detectBrowser` are total and deterministic
over all input strings (including the empty string): each always returns a
value of its enumeration, returns `"unknown"` when none of its patterns
matches, and equal inputs give equal outputs. -/
theorem detect_os_browser_total (s : String) :
    (detectOS s = "ios" ∨ detectOS s = "android" ∨ detectOS s = "windows"
      ∨ detectOS s = "macos" ∨ detectOS s = "linux" ∨ detectOS s = "unknown")
    ∧ (detectBrowser s = "edge" ∨ detectBrowser s = "samsung"
      ∨ detectBrowser s = "opera" ∨ detectBrowser s = "chrome"
      ∨ detectBrowser s = "safari" ∨ detectBrowser s = "firefox"
      ∨ detectBrowser s = "unknown")
    ∧ ((ciIncludes s "iPhone" = false ∧ ciIncludes s "iPad" = false
        ∧ ciIncludes s "iPod" = false ∧ ciIncludes s "Android" = false
        ∧ ciIncludes s "Windows" = false ∧ ciIncludes s "Mac OS X" = false
        ∧ ciIncludes s "Linux" = false) → detectOS s = "unknown")
    ∧ ((ciIncludes s "Edge" = false ∧ ciIncludes s "Edg" = false
        ∧ ciIncludes s "SamsungBrowser" = false ∧ ciIncludes s "Opera" = false
        ∧ ciIncludes s "OPR" = false ∧ ciHasAvoiding s "Chrome" "Edge" = false
        ∧ ciHasAvoiding s "Safari" "Chrome" = false
        ∧ ciIncludes s "Firefox" = false) → detectBrowser s = "unknown")
    ∧ detectOS s = detectOS s ∧ detectBrowser s = detectBrowser s := by
  refine ⟨?_, ?_, ?_, ?_, rfl, rfl⟩
  · unfold detectOS
    split_ifs <;> simp
  · unfold detectBrowser
    split_ifs <;> simp
  · intro h
    obtain ⟨h1, h2, h3, h4, h5, h6, h7⟩ := h
    simp [detectOS, h1, h2, h3, h4, h5, h6, h7]
  · intro h
    obtain ⟨h1, h2, h3, h4, h5, h6, h7, h8⟩ := h
    simp [detectBrowser, h1, h2, h3, h4, h5, h6, h7, h8]

/-- An instance of `detect_os_browser_total` at the empty signature. -/
theorem detect_os_browser_total_witness :
    detectOS "" = "unknown" ∧ detectBrowser "" = "unknown" :=
  ⟨(detect_os_browser_total "").2.2.1 (by decide),
    (detect_os_browser_total "").2.2.2.1 (by decide)⟩

/-! ## Claim C10 -/

/-- Claim C10: `requestCameraPermission` never throws: absent `getUserMedia`
support it returns `false` (and does not refresh), a denied runtime request
returns `false`, and only a granted request returns `true`, with the
capability refresh triggered exactly then. -/
theorem request_camera_permission_never_throws :
    (∀ grants : Bool, requestCameraPermission false grants = (false, false))
    ∧ requestCameraPermission true false = (false, false)
    ∧ requestCameraPermission true true = (true, true) :=
  ⟨fun _ => rfl, rfl, rfl⟩
